import Mathlib

/-!
Verification of the rolling-window regression price predictor found in
`frontend/src/pages/Portfolio.tsx` (the `BidSuggestions` component): the
sample window maintained by `setPriceHistory`, the least-squares fits
`computeLinearRegression` / `computePolynomialRegression`, the model
selection and trend classification performed when the window updates, and
the forecast function `predictPriceWithRegression`.

Numbers are modelled as rationals (the source works on JS floats; every
constant in the source is an exact decimal, so the control flow translates
verbatim).  `Math.random()` draws are passed in as explicit arguments
`rMult` (the draw consumed by the peak/night multiplier branch) and
`rNoise` (the draw consumed by the volatility-noise term).  `Math.sqrt`,
which is irrational-valued, is passed in as an explicit function argument
`msqrt`; no theorem below depends on its values except through the
published `volatility` field.  The wall-clock hour `new Date().getHours()`
is passed in as `baseHour`.
-/

/-- One entry of the rolling price window, as appended by the
`setPriceHistory` updater: `{ price: marketData.currentPrice, timestamp }`.
The `hour`, `demand` and `renewablePercentage` fields also stored by the
source are never read by the window logic, the fits or the predictor, and
are omitted. -/
structure Sample where
  price : ℚ
  timestamp : ℤ
deriving DecidableEq

/-- Append one entry, `[...prev, newEntry].slice(-50)`, keeping only the
last 50 entries (`slice(-50)` of a list of length `L` keeps the final
`min L 50` entries, i.e. drops the first `L - 50`). -/
def pushWindow (w : List Sample) (s : Sample) : List Sample :=
  let updated := w ++ [s]
  updated.drop (updated.length - 50)

/-- The duplicate check of the `setPriceHistory` updater:
`lastEntry && Math.abs(lastEntry.price - marketData.currentPrice) < 0.01
&& timestamp - lastEntry.timestamp < 30000`.  Only the most recent entry
of the window is consulted. -/
def isDuplicate (w : List Sample) (price : ℚ) (now : ℤ) : Bool :=
  match w.getLast? with
  | some lastEntry =>
      decide (|lastEntry.price - price| < 1 / 100) &&
      decide (now - lastEntry.timestamp < 30000)
  | none => false

/-- One `record` step of the predictor: the effect guarded by
`marketData?.currentPrice && marketData.currentPrice > 0` that runs the
duplicate check and otherwise appends to the rolling window. -/
def record (price : ℚ) (now : ℤ) (w : List Sample) : List Sample :=
  if 0 < price then
    if isDuplicate w price now then w else pushWindow w ⟨price, now⟩
  else w

/-- Folding a stream of `(price, timestamp)` observations through
`record`, oldest first. -/
def recordAll (w : List Sample) (inserts : List (ℚ × ℤ)) : List Sample :=
  inserts.foldl (fun acc pt => record pt.1 pt.2 acc) w

/-- The stream of observations is "valid" in the sense of the spec:
every observation has a positive price and is not rejected by the
duplicate check at the moment it is recorded. -/
def acceptedFrom : List Sample → List (ℚ × ℤ) → Bool
  | _, [] => true
  | w, pt :: rest =>
      (decide (0 < pt.1) && !(isDuplicate w pt.1 pt.2)) &&
      acceptedFrom (record pt.1 pt.2 w) rest

/-- The samples a stream of accepted observations turns into. -/
def toSamples (inserts : List (ℚ × ℤ)) : List Sample :=
  inserts.map (fun pt => ⟨pt.1, pt.2⟩)

theorem pushWindow_length (w : List Sample) (s : Sample) :
    (pushWindow w s).length = min (w.length + 1) 50 := by
  simp only [pushWindow, List.length_drop, List.length_append,
    List.length_cons, List.length_nil]
  omega

theorem record_of_accepted {w : List Sample} {price : ℚ} {now : ℤ}
    (hp : 0 < price) (hd : isDuplicate w price now = false) :
    record price now w = pushWindow w ⟨price, now⟩ := by
  simp [record, hp, hd]

theorem recordAll_drop (inserts : List (ℚ × ℤ)) :
    ∀ w : List Sample, w.length ≤ 50 → acceptedFrom w inserts = true →
      recordAll w inserts =
        (w ++ toSamples inserts).drop ((w.length + inserts.length) - 50) := by
  induction inserts with
  | nil =>
      intro w hw _
      simp only [recordAll, List.foldl_nil, toSamples, List.map_nil,
        List.append_nil, List.length_nil, Nat.add_zero]
      rw [Nat.sub_eq_zero_of_le hw, List.drop_zero]
  | cons pt rest ih =>
      intro w hw hacc
      simp only [acceptedFrom, Bool.and_eq_true, decide_eq_true_eq,
        Bool.not_eq_true'] at hacc
      obtain ⟨⟨hp, hd⟩, hrest⟩ := hacc
      have hrec : record pt.1 pt.2 w = pushWindow w ⟨pt.1, pt.2⟩ :=
        record_of_accepted hp hd
      have hlen : (record pt.1 pt.2 w).length ≤ 50 := by
        rw [hrec, pushWindow_length]; omega
      have step : recordAll w (pt :: rest) = recordAll (record pt.1 pt.2 w) rest := by
        simp [recordAll]
      rw [step, ih _ hlen hrest, hrec]
      simp only [pushWindow, List.length_append, List.length_cons,
        List.length_nil, List.length_drop, Nat.zero_add]
      have h5 : w.length + 1 - 50 ≤ (w ++ [(⟨pt.1, pt.2⟩ : Sample)]).length := by
        simp only [List.length_append, List.length_cons, List.length_nil,
          Nat.zero_add]
        omega
      rw [← List.drop_append_of_le_length h5, List.drop_drop]
      have h6 : toSamples (pt :: rest) = (⟨pt.1, pt.2⟩ : Sample) :: toSamples rest := by
        simp [toSamples]
      rw [h6]
      have h7 : (w ++ [(⟨pt.1, pt.2⟩ : Sample)]) ++ toSamples rest =
          w ++ (⟨pt.1, pt.2⟩ : Sample) :: toSamples rest := by
        simp
      rw [h7]
      congr 1
      omega

/-- Claim C2: starting from an empty window, recording a stream of `n ≥ 1`
valid (positive-price, never duplicate-suppressed) observations leaves a
window of length `min n 50`, and the window is exactly the last
`min n 50` observations in arrival order — the oldest entries are the
ones evicted (FIFO). -/
theorem claim2_window_length (inserts : List (ℚ × ℤ))
    (hne : 1 ≤ inserts.length)
    (hacc : acceptedFrom [] inserts = true) :
    (recordAll [] inserts).length = min inserts.length 50 ∧
      recordAll [] inserts =
        (toSamples inserts).drop (inserts.length - 50) := by
  have h := recordAll_drop inserts [] (by simp) hacc
  simp only [List.nil_append, List.length_nil, Nat.zero_add] at h
  refine ⟨?_, h⟩
  rw [h, List.length_drop]
  have : (toSamples inserts).length = inserts.length := by
    simp [toSamples]
  rw [this]
  omega

/-- Witness for C2 at a concrete accepted stream of three observations. -/
theorem claim2_window_length_witness :
    (recordAll [] [(45, 0), (46, 40000), (47, 80000)]).length =
      min ([(45, (0:ℤ)), (46, 40000), (47, 80000)] : List (ℚ × ℤ)).length 50 ∧
      recordAll [] [(45, 0), (46, 40000), (47, 80000)] =
        (toSamples [(45, 0), (46, 40000), (47, 80000)]).drop
          (([(45, (0:ℤ)), (46, 40000), (47, 80000)] : List (ℚ × ℤ)).length - 50) :=
  claim2_window_length [(45, 0), (46, 40000), (47, 80000)]
    (by norm_num)
    (by norm_num [acceptedFrom, isDuplicate, record, pushWindow])

theorem pushWindow_ne_of_not_dup {w : List Sample} {price : ℚ} {now : ℤ}
    (hd : isDuplicate w price now = false) :
    pushWindow w ⟨price, now⟩ ≠ w := by
  intro heq
  have hlen := congrArg List.length heq
  rw [pushWindow_length] at hlen
  have hw : w.length = 50 := by omega
  cases w with
  | nil => simp at hw
  | cons hd' tl =>
      have htl : tl.length = 49 := by
        simp only [List.length_cons] at hw; omega
      have hdrop : pushWindow (hd' :: tl) ⟨price, now⟩ = tl ++ [⟨price, now⟩] := by
        simp only [pushWindow, List.cons_append, List.length_cons,
          List.length_append, List.length_nil, htl]
        norm_num
      rw [hdrop] at heq
      have hlast := congrArg List.getLast? heq
      rw [List.getLast?_concat] at hlast
      have hdup : isDuplicate (hd' :: tl) price now = true := by
        simp only [isDuplicate, ← hlast]
        norm_num
      rw [hdup] at hd
      simp at hd

/-- Claim C3 (amended): for a valid (positive-price) observation, `record`
is a no-op exactly when the MOST RECENT window entry is within 30 seconds
and its price differs by less than 0.01; in particular an observation
arriving 30 seconds or more after the most recent entry is always
appended regardless of price delta, and recording the price 45.0 three
times more than 30 seconds apart yields window length 3 (Scenario C). -/
theorem claim3_amended :
    (∀ (w : List Sample) (price : ℚ) (now : ℤ), 0 < price →
        (record price now w = w ↔
          ∃ lastEntry, w.getLast? = some lastEntry ∧
            |lastEntry.price - price| < 1 / 100 ∧
            now - lastEntry.timestamp < 30000)) ∧
      (record 45 80000 (record 45 40000 (record 45 0 []))).length = 3 := by
  constructor
  · intro w price now hp
    constructor
    · intro hrec
      by_cases hb : isDuplicate w price now = true
      · unfold isDuplicate at hb
        cases hl : w.getLast? with
        | none => rw [hl] at hb; simp at hb
        | some lastEntry =>
            rw [hl] at hb
            simp only [Bool.and_eq_true, decide_eq_true_eq] at hb
            exact ⟨lastEntry, rfl, hb.1, hb.2⟩
      · have hb' : isDuplicate w price now = false := by
          simp only [Bool.not_eq_true] at hb; exact hb
        rw [record_of_accepted hp hb'] at hrec
        exact absurd hrec (pushWindow_ne_of_not_dup hb')
    · intro hex
      obtain ⟨lastEntry, hl, h1, h2⟩ := hex
      have hb : isDuplicate w price now = true := by
        simp only [isDuplicate, hl, Bool.and_eq_true, decide_eq_true_eq]
        exact ⟨h1, h2⟩
      simp [record, hp, hb]
  · norm_num [record, isDuplicate, pushWindow]

/-- Witness for the amended C3 at a concrete window and observation. -/
theorem claim3_amended_witness :
    record 45 40000 [⟨45, 0⟩] = [⟨45, 0⟩] ↔
      ∃ lastEntry, ([(⟨45, 0⟩ : Sample)]).getLast? = some lastEntry ∧
        |lastEntry.price - 45| < 1 / 100 ∧
        40000 - lastEntry.timestamp < 30000 :=
  claim3_amended.1 [⟨45, 0⟩] 45 40000 (by norm_num)

/-- Claim C3 as frozen is false on the code: the duplicate check consults
only the most recent window entry, not every prior sample within 30
seconds.  Concretely, after recording 45.0 at t=0ms and 46.0 at t=5000ms,
a prior sample (the one at t=0) exists within 30 seconds of t=10000ms
whose price differs from 45.0 by less than 0.01, yet recording 45.0 at
t=10000ms is not a no-op: the sample is appended. -/
theorem claim3_cex :
    (∃ s ∈ record 46 5000 (record 45 0 []),
        10000 - s.timestamp < 30000 ∧ |s.price - (45 : ℚ)| < 1 / 100) ∧
      record 45 10000 (record 46 5000 (record 45 0 [])) ≠
        record 46 5000 (record 45 0 []) := by
  have hw : record 46 5000 (record 45 0 []) = [⟨45, 0⟩, ⟨46, 5000⟩] := by
    norm_num [record, isDuplicate, pushWindow]
  have hw3 : record 45 10000 (record 46 5000 (record 45 0 [])) =
      [⟨45, 0⟩, ⟨46, 5000⟩, ⟨45, 10000⟩] := by
    norm_num [record, isDuplicate, pushWindow]
  constructor
  · refine ⟨⟨45, 0⟩, ?_, by norm_num, by norm_num⟩
    rw [hw]; simp
  · rw [hw3, hw]
    intro h
    have := congrArg List.length h
    simp at this

/-- Result of `computeLinearRegression`: `{ slope, intercept, rSquared }`. -/
structure LinFit where
  slope : ℚ
  intercept : ℚ
  rSquared : ℚ
deriving DecidableEq

/-- The source function `computeLinearRegression(xData, yData)`:
ordinary least squares with
`R² = max(0, 1 - ssRes/ssTotal)` (and the source's explicit guards for a
zero denominator and a zero total sum of squares). -/
def computeLinearRegression (xData yData : List ℚ) : LinFit :=
  let n := xData.length
  if n < 2 then ⟨0, 0, 0⟩
  else
    let xMean := xData.sum / (n : ℚ)
    let yMean := yData.sum / (n : ℚ)
    let numerator := ((xData.zip yData).map (fun p => (p.1 - xMean) * (p.2 - yMean))).sum
    let denominator := (xData.map (fun x => (x - xMean) ^ 2)).sum
    let ssTotal := (yData.map (fun y => (y - yMean) ^ 2)).sum
    let slope := if denominator ≠ 0 then numerator / denominator else 0
    let intercept := yMean - slope * xMean
    let ssRes := ((xData.zip yData).map (fun p => (p.2 - (slope * p.1 + intercept)) ^ 2)).sum
    let rSquared := if ssTotal ≠ 0 then 1 - ssRes / ssTotal else 0
    ⟨slope, intercept, max 0 rSquared⟩

/-- Result of `computePolynomialRegression`:
`{ coefficients: [c0, c1, c2], rSquared }`. -/
structure PolyFit where
  coefficients : List ℚ
  rSquared : ℚ
deriving DecidableEq

/-- Entry `Σ x_i^j` of the degree-2 normal-equations matrix `X'X` (the
source builds the Vandermonde matrix and multiplies; for degree 2 the
entries of `X'X` are exactly these power sums, with `XTX[r][c] = Σ x^(r+c)`). -/
def sumPow (xData : List ℚ) (j : ℕ) : ℚ :=
  (xData.map (fun x => x ^ j)).sum

/-- Entry `Σ x_i^j * y_i` of the right-hand side `X'y`. -/
def sumPowY (xData yData : List ℚ) (j : ℕ) : ℚ :=
  ((xData.zip yData).map (fun p => p.1 ^ j * p.2)).sum

/-- The 3×3 determinant of `X'X` exactly as expanded in the source. -/
def polyDet (xData : List ℚ) : ℚ :=
  let S0 := sumPow xData 0
  let S1 := sumPow xData 1
  let S2 := sumPow xData 2
  let S3 := sumPow xData 3
  let S4 := sumPow xData 4
  S0 * (S2 * S4 - S3 * S3) - S1 * (S1 * S4 - S3 * S2) + S2 * (S1 * S3 - S2 * S2)

/-- The source function `computePolynomialRegression(xData, yData, 2)`:
solve the 3×3 normal
equations by the source's closed-form Cramer expansion; if
`|det| < 1e-10`, fall back to the linear fit's coefficients padded with a
zero quadratic term.  The Lean function is total, which captures the
source's guarantee (via its `try`/`catch` and guards) that the fit never
throws. -/
def computePolynomialRegression (xData yData : List ℚ) : PolyFit :=
  let n := xData.length
  if n < 3 then ⟨[0, 0, 0], 0⟩
  else
    let S0 := sumPow xData 0
    let S1 := sumPow xData 1
    let S2 := sumPow xData 2
    let S3 := sumPow xData 3
    let S4 := sumPow xData 4
    let T0 := sumPowY xData yData 0
    let T1 := sumPowY xData yData 1
    let T2 := sumPowY xData yData 2
    let det := polyDet xData
    if |det| < 1 / 10000000000 then
      let linear := computeLinearRegression xData yData
      ⟨[linear.intercept, linear.slope, 0], linear.rSquared⟩
    else
      let c0 := (T0 * (S2 * S4 - S3 * S3) - S1 * (T1 * S4 - T2 * S3) +
          S2 * (T1 * S3 - T2 * S2)) / det
      let c1 := (S0 * (T1 * S4 - T2 * S3) - T0 * (S1 * S4 - S3 * S2) +
          S2 * (S1 * T2 - T1 * S2)) / det
      let c2 := (S0 * (S2 * T2 - T1 * S3) - S1 * (S1 * T2 - T1 * S2) +
          T0 * (S1 * S3 - S2 * S2)) / det
      let yMean := yData.sum / (n : ℚ)
      let ssTotal := (yData.map (fun y => (y - yMean) ^ 2)).sum
      let ssRes := ((xData.zip yData).map
          (fun p => (p.2 - (c0 + c1 * p.1 + c2 * p.1 * p.1)) ^ 2)).sum
      let rSquared := if ssTotal ≠ 0 then max 0 (1 - ssRes / ssTotal) else 0
      ⟨[c0, c1, c2], rSquared⟩

/-- The model selected when the window updates: either the linear fit
(`{ type: 'linear', ...linearModel }`) or the degree-2 polynomial fit
(`{ type: 'polynomial', ...polyModel }`). -/
inductive SelectedFit where
  | linear (fit : LinFit)
  | polynomial (fit : PolyFit)
deriving DecidableEq

def SelectedFit.rSquared : SelectedFit → ℚ
  | .linear f => f.rSquared
  | .polynomial f => f.rSquared

/-- The `type` field attached on selection. -/
def SelectedFit.modelType : SelectedFit → String
  | .linear _ => "linear"
  | .polynomial _ => "polynomial"

/-- The time indices `0 .. n-1`, i.e.
`xData = newHistory.map((_, i) => i)`. -/
def xIndices (n : ℕ) : List ℚ :=
  (List.range n).map (fun i => (i : ℚ))

/-- The fit-and-select step run by the window-update effect: fit linear
always, fit the degree-2 polynomial only when the window has ≥ 5 samples
(`polyModel` is the linear model itself otherwise, in which case the
selection condition below cannot hold and the linear model is kept), and
prefer the polynomial only when its R² beats the linear R² by more than
0.1. -/
def fitWindow (prices : List ℚ) : SelectedFit :=
  let n := prices.length
  let xData := xIndices n
  let linearModel := computeLinearRegression xData prices
  let polyModel : SelectedFit :=
    if 5 ≤ n then .polynomial (computePolynomialRegression xData prices)
    else .linear linearModel
  if polyModel.rSquared > linearModel.rSquared + 1 / 10 then polyModel
  else .linear linearModel

/-- The `trend` field stored with the model:
`selectedModel.type === 'linear' ? (slope > 0.01 ? 'upward' : slope < -0.01
? 'downward' : 'stable') : 'complex'`. -/
def selectedTrend : SelectedFit → String
  | .linear f =>
      if f.slope > 1 / 100 then "upward"
      else if f.slope < -(1 / 100) then "downward"
      else "stable"
  | .polynomial _ => "complex"

/-- The regression-model state stored by `setRegressionModel` (the
`lastUpdate` and `dataPoints` bookkeeping fields are never read by the
predictor and are omitted). -/
structure RegressionModel where
  fit : SelectedFit
  trend : String
deriving DecidableEq

/-- The model stored after a window update on a window with the given
prices. -/
def mkRegressionModel (prices : List ℚ) : RegressionModel :=
  let sel := fitWindow prices
  ⟨sel, selectedTrend sel⟩

theorem xIndices_five : xIndices 5 = [0, 1, 2, 3, 4] := by
  norm_num [xIndices, List.range_succ]

theorem xIndices_three : xIndices 3 = [0, 1, 2] := by
  norm_num [xIndices, List.range_succ]

theorem linReg_valley : computeLinearRegression [0, 1, 2, 3, 4] [44, 41, 40, 41, 44] =
    ⟨0, 42, 0⟩ := by
  norm_num [computeLinearRegression, List.zip]

theorem polyReg_valley : computePolynomialRegression [0, 1, 2, 3, 4] [44, 41, 40, 41, 44] =
    ⟨[44, -4, 1], 1⟩ := by
  norm_num [computePolynomialRegression, polyDet, sumPow, sumPowY, List.zip]

theorem fitWindow_valley : fitWindow [44, 41, 40, 41, 44] =
    SelectedFit.polynomial ⟨[44, -4, 1], 1⟩ := by
  have h1 : ([44, 41, 40, 41, 44] : List ℚ).length = 5 := by norm_num
  simp only [fitWindow, h1, xIndices_five, linReg_valley, polyReg_valley]
  norm_num [SelectedFit.rSquared]

theorem linReg_line : computeLinearRegression [0, 1, 2] [40, 41, 42] =
    ⟨1, 40, 1⟩ := by
  norm_num [computeLinearRegression, List.zip]

theorem fitWindow_line : fitWindow [40, 41, 42] = SelectedFit.linear ⟨1, 40, 1⟩ := by
  have h1 : ([40, 41, 42] : List ℚ).length = 3 := by norm_num
  simp only [fitWindow, h1, xIndices_three, linReg_line]
  norm_num [SelectedFit.rSquared]

/-- Claim C4: on a window of length ≥ 5 the polynomial model is selected
iff its R² exceeds the linear R² by more than 0.1 (ties and smaller
improvements keep linear), and windows of length 3 or 4 always yield the
linear model. -/
theorem claim4_model_selection (prices : List ℚ) (h3 : 3 ≤ prices.length) :
    (5 ≤ prices.length →
      (fitWindow prices =
          SelectedFit.polynomial
            (computePolynomialRegression (xIndices prices.length) prices) ↔
        (computePolynomialRegression (xIndices prices.length) prices).rSquared >
          (computeLinearRegression (xIndices prices.length) prices).rSquared + 1 / 10)) ∧
      (prices.length = 3 ∨ prices.length = 4 →
        fitWindow prices =
          SelectedFit.linear (computeLinearRegression (xIndices prices.length) prices)) := by
  constructor
  · intro h5
    simp only [fitWindow, if_pos h5, SelectedFit.rSquared]
    by_cases hc : (computePolynomialRegression (xIndices prices.length) prices).rSquared >
        (computeLinearRegression (xIndices prices.length) prices).rSquared + 1 / 10
    · rw [if_pos hc]
      exact iff_of_true rfl hc
    · rw [if_neg hc]
      exact iff_of_false (by simp) hc
  · intro h34
    have h5 : ¬ 5 ≤ prices.length := by omega
    simp only [fitWindow, if_neg h5, SelectedFit.rSquared]
    have hc : ¬ ((computeLinearRegression (xIndices prices.length) prices).rSquared >
        (computeLinearRegression (xIndices prices.length) prices).rSquared + 1 / 10) := by
      intro h
      linarith
    rw [if_neg hc]

/-- Witness for C4: the polynomial is selected on the length-5 valley
window (where poly R² = 1 beats linear R² = 0 by more than 0.1), and a
length-3 window yields the linear model. -/
theorem claim4_model_selection_witness :
    (fitWindow [44, 41, 40, 41, 44] =
        SelectedFit.polynomial
          (computePolynomialRegression
            (xIndices ([44, 41, 40, 41, 44] : List ℚ).length) [44, 41, 40, 41, 44]) ↔
      (computePolynomialRegression
          (xIndices ([44, 41, 40, 41, 44] : List ℚ).length) [44, 41, 40, 41, 44]).rSquared >
        (computeLinearRegression
          (xIndices ([44, 41, 40, 41, 44] : List ℚ).length) [44, 41, 40, 41, 44]).rSquared
          + 1 / 10) ∧
      fitWindow [40, 41, 42] =
        SelectedFit.linear
          (computeLinearRegression (xIndices ([40, 41, 42] : List ℚ).length) [40, 41, 42]) :=
  ⟨(claim4_model_selection [44, 41, 40, 41, 44] (by norm_num)).1 (by norm_num),
    (claim4_model_selection [40, 41, 42] (by norm_num)).2 (by norm_num)⟩

/-- Claim C5: whenever the 3×3 normal-equations determinant is
numerically degenerate (`|det| < 1e-10`), the polynomial fit returns the
linear fit's coefficients padded with a zero quadratic term, together
with the linear R².  (The Lean model of the fit is a total function: no
input can make it throw, matching the source's `try`/`catch` design.) -/
theorem claim5_degenerate_fallback (xData yData : List ℚ)
    (h3 : 3 ≤ xData.length)
    (hdet : |polyDet xData| < 1 / 10000000000) :
    computePolynomialRegression xData yData =
      ⟨[(computeLinearRegression xData yData).intercept,
        (computeLinearRegression xData yData).slope, 0],
        (computeLinearRegression xData yData).rSquared⟩ := by
  have h3' : ¬ xData.length < 3 := by omega
  simp only [computePolynomialRegression]
  rw [if_neg h3', if_pos hdet]

/-- Witness for C5 at the degenerate inputs `x = [0,0,0]`, `y = [1,2,3]`
(the determinant is exactly 0). -/
theorem claim5_degenerate_fallback_witness :
    computePolynomialRegression [0, 0, 0] [1, 2, 3] =
      ⟨[(computeLinearRegression [0, 0, 0] [1, 2, 3]).intercept,
        (computeLinearRegression [0, 0, 0] [1, 2, 3]).slope, 0],
        (computeLinearRegression [0, 0, 0] [1, 2, 3]).rSquared⟩ :=
  claim5_degenerate_fallback [0, 0, 0] [1, 2, 3] (by norm_num)
    (by norm_num [polyDet, sumPow])

theorem fitWindow_linear_eq (prices : List ℚ) (f : LinFit)
    (h : fitWindow prices = SelectedFit.linear f) :
    f = computeLinearRegression (xIndices prices.length) prices := by
  simp only [fitWindow] at h
  split_ifs at h <;>
    first
      | (injection h with h1; exact h1.symm)
      | simp at h

/-- Claim C6 as frozen is false on the code: the trend label is NOT
always derived from the linear slope.  On the valley window
`[44, 41, 40, 41, 44]` the polynomial model is selected; the linear slope
is 0 (so the claim demands the label Stable), but the stored trend is the
label `complex`. -/
theorem claim6_cex :
    (computeLinearRegression
        (xIndices ([44, 41, 40, 41, 44] : List ℚ).length) [44, 41, 40, 41, 44]).slope = 0 ∧
      (mkRegressionModel [44, 41, 40, 41, 44]).trend = "complex" ∧
      ("complex" : String) ≠ "stable" := by
  have h1 : ([44, 41, 40, 41, 44] : List ℚ).length = 5 := by norm_num
  refine ⟨?_, ?_, by decide⟩
  · rw [h1, xIndices_five, linReg_valley]
  · have h2 : (mkRegressionModel [44, 41, 40, 41, 44]).trend =
        selectedTrend (fitWindow [44, 41, 40, 41, 44]) := rfl
    rw [h2, fitWindow_valley]
    rfl

/-- Claim C6 (amended): the trend label follows the linear slope
thresholds (> 0.01 Upward, < −0.01 Downward, else Stable) exactly when
the LINEAR model is the selected model; when the polynomial model is
selected the stored trend is the fixed label `complex`, not derived from
the linear slope. -/
theorem claim6_amended (prices : List ℚ) (h3 : 3 ≤ prices.length) :
    (∀ f, (mkRegressionModel prices).fit = SelectedFit.linear f →
        f = computeLinearRegression (xIndices prices.length) prices ∧
          (mkRegressionModel prices).trend =
            (if (computeLinearRegression (xIndices prices.length) prices).slope > 1 / 100
              then "upward"
              else if (computeLinearRegression (xIndices prices.length) prices).slope <
                  -(1 / 100)
                then "downward" else "stable")) ∧
      ∀ p, (mkRegressionModel prices).fit = SelectedFit.polynomial p →
        (mkRegressionModel prices).trend = "complex" := by
  constructor
  · intro f hf
    have hfit : (mkRegressionModel prices).fit = fitWindow prices := rfl
    rw [hfit] at hf
    have hf2 := fitWindow_linear_eq prices f hf
    refine ⟨hf2, ?_⟩
    have htr : (mkRegressionModel prices).trend =
        selectedTrend (fitWindow prices) := rfl
    rw [htr, hf, hf2]
    rfl
  · intro p hp
    have hfit : (mkRegressionModel prices).fit = fitWindow prices := rfl
    rw [hfit] at hp
    have htr : (mkRegressionModel prices).trend =
        selectedTrend (fitWindow prices) := rfl
    rw [htr, hp]
    rfl

/-- Witness for the amended C6 on the exact line `[40, 41, 42]`: the
linear model (slope 1) is selected and the trend label is `upward`. -/
theorem claim6_amended_witness :
    (⟨1, 40, 1⟩ : LinFit) =
        computeLinearRegression (xIndices ([40, 41, 42] : List ℚ).length) [40, 41, 42] ∧
      (mkRegressionModel [40, 41, 42]).trend =
        (if (computeLinearRegression
              (xIndices ([40, 41, 42] : List ℚ).length) [40, 41, 42]).slope > 1 / 100
          then "upward"
          else if (computeLinearRegression
              (xIndices ([40, 41, 42] : List ℚ).length) [40, 41, 42]).slope < -(1 / 100)
            then "downward" else "stable") :=
  (claim6_amended [40, 41, 42] (by norm_num)).1 ⟨1, 40, 1⟩
    (by
      have hfit : (mkRegressionModel [40, 41, 42]).fit = fitWindow [40, 41, 42] := rfl
      rw [hfit, fitWindow_line])

/-- The object returned by `predictPriceWithRegression`.  The fallback
path omits the `rSquared`, `trend` and `volatility` fields of the fitted
path; these are modelled as `Option` fields that the fallback leaves
`none`. -/
structure Prediction where
  predictedPrice : ℚ
  confidence : ℚ
  method : String
  rSquared : Option ℚ
  trend : Option String
  volatility : Option ℚ
deriving DecidableEq

/-- The JS expression `marketData?.currentPrice || 45.0`: the current
price when it is
present and nonzero (zero is falsy in JS), else the constant 45.0. -/
def jsOrDefault (currentPrice : Option ℚ) : ℚ :=
  match currentPrice with
  | some p => if p = 0 then 45 else p
  | none => 45

/-- The insufficient-data fallback return of `predictPriceWithRegression`:
`{ predictedPrice: marketData?.currentPrice || 45.0, confidence: 30,
method: 'fallback' }` — note it carries no `trend` field. -/
def fallbackPrediction (currentPrice : Option ℚ) : Prediction :=
  { predictedPrice := jsOrDefault currentPrice, confidence := 30,
    method := "fallback", rSquared := none, trend := none, volatility := none }

/-- Evaluation of the selected model at index `x`:
`slope * futureIndex + intercept` for the linear model,
`coefficients[0] + coefficients[1]*futureIndex +
coefficients[2]*futureIndex*futureIndex` for the polynomial model. -/
def evalFit : SelectedFit → ℚ → ℚ
  | .linear f, x => f.slope * x + f.intercept
  | .polynomial f, x =>
      f.coefficients.getD 0 0 + f.coefficients.getD 1 0 * x +
        f.coefficients.getD 2 0 * x * x

/-- The volatility of the last 10 window prices (sample standard
deviation), `Math.sqrt` abstracted as `msqrt`; 0 when fewer than two
recent prices exist. -/
def recentVolatility (msqrt : ℚ → ℚ) (priceHistory : List Sample) : ℚ :=
  let recentPrices := (priceHistory.drop (priceHistory.length - 10)).map
    (fun h => h.price)
  if 1 < recentPrices.length then
    let mean := recentPrices.sum / (recentPrices.length : ℚ)
    msqrt ((recentPrices.map (fun p => (p - mean) ^ 2)).sum /
      ((recentPrices.length : ℚ) - 1))
  else 0

/-- The source function `predictPriceWithRegression(hoursAhead)`.
Here `baseHour` stands for
`new Date().getHours()`; `rMult` is the `Math.random()` draw consumed by
the peak/night multiplier, `rNoise` the draw consumed by the volatility
noise term; `msqrt` stands for `Math.sqrt`. -/
def predictPriceWithRegression (msqrt : ℚ → ℚ)
    (regressionModel : Option RegressionModel) (priceHistory : List Sample)
    (currentPrice : Option ℚ) (baseHour hoursAhead : ℕ)
    (rMult rNoise : ℚ) : Prediction :=
  match regressionModel with
  | none => fallbackPrediction currentPrice
  | some model =>
      if priceHistory.length < 3 then fallbackPrediction currentPrice
      else
        let currentIndex := priceHistory.length - 1
        let futureIndex : ℚ := (currentIndex : ℚ) + (hoursAhead : ℚ)
        let confidence0 := min 95 (model.fit.rSquared * 100)
        let price0 := evalFit model.fit futureIndex
        let currentHour := (baseHour + hoursAhead) % 24
        let isPeakHour := (8 ≤ currentHour ∧ currentHour ≤ 12) ∨
          (18 ≤ currentHour ∧ currentHour ≤ 22)
        let isNightHour := 23 ≤ currentHour ∨ currentHour ≤ 6
        let price1 :=
          if isPeakHour then price0 * (105 / 100 + rMult * (5 / 100))
          else if isNightHour then price0 * (92 / 100 - rMult * (5 / 100))
          else price0
        let confidence1 :=
          if isPeakHour then confidence0 + 5
          else if isNightHour then confidence0 + 3
          else confidence0
        let volatility := recentVolatility msqrt priceHistory
        let noiseAdjustment := (rNoise - 1 / 2) * volatility * (3 / 10)
        let price2 := price1 + noiseAdjustment
        let confidence2 := max 25 (confidence1 - (hoursAhead : ℚ) * 5)
        { predictedPrice := max 10 price2, confidence := confidence2,
          method := model.fit.modelType, rSquared := some model.fit.rSquared,
          trend := some model.trend, volatility := some volatility }

theorem predict_confidence_eq (msqrt : ℚ → ℚ) (m : RegressionModel)
    (priceHistory : List Sample) (currentPrice : Option ℚ)
    (baseHour hoursAhead : ℕ) (rMult rNoise : ℚ)
    (hlen : ¬ priceHistory.length < 3) :
    (predictPriceWithRegression msqrt (some m) priceHistory currentPrice
        baseHour hoursAhead rMult rNoise).confidence =
      max 25
        ((if (8 ≤ (baseHour + hoursAhead) % 24 ∧ (baseHour + hoursAhead) % 24 ≤ 12) ∨
              (18 ≤ (baseHour + hoursAhead) % 24 ∧ (baseHour + hoursAhead) % 24 ≤ 22)
            then min 95 (m.fit.rSquared * 100) + 5
            else if 23 ≤ (baseHour + hoursAhead) % 24 ∨ (baseHour + hoursAhead) % 24 ≤ 6
              then min 95 (m.fit.rSquared * 100) + 3
              else min 95 (m.fit.rSquared * 100)) - (hoursAhead : ℚ) * 5) := by
  simp only [predictPriceWithRegression, if_neg hlen]

/-- Claim C1 as frozen is false on the code: the insufficient-data
fallback prediction carries NO `trend` field at all (in particular not
the label Stable).  At the concrete call on an empty window with current
price 45, the returned prediction is the fallback record with
`trend = none`, not `some "stable"`. -/
theorem claim1_cex :
    predictPriceWithRegression (fun q => q) none [] (some 45) 0 1 0 0 =
      { predictedPrice := 45, confidence := 30, method := "fallback",
        rSquared := none, trend := none, volatility := none } ∧
      (predictPriceWithRegression (fun q => q) none [] (some 45) 0 1 0 0).trend ≠
        some "stable" := by
  have h : predictPriceWithRegression (fun q => q) none [] (some 45) 0 1 0 0 =
      { predictedPrice := 45, confidence := 30, method := "fallback",
        rSquared := none, trend := none, volatility := none } := by
    norm_num [predictPriceWithRegression, fallbackPrediction, jsOrDefault]
  refine ⟨h, ?_⟩
  rw [h]
  simp

/-- Claim C1 (amended): whenever the window has fewer than 3 samples —
for any model state, any `k ≥ 0`, any random draws — `predict` returns
`{ predictedPrice: currentPrice || 45.0, confidence: 30, method:
Fallback }`, with no trend field (`trend = none`), rather than a Stable
trend. -/
theorem claim1_amended (msqrt : ℚ → ℚ) (regressionModel : Option RegressionModel)
    (priceHistory : List Sample) (currentPrice : Option ℚ)
    (baseHour hoursAhead : ℕ) (rMult rNoise : ℚ)
    (hlen : priceHistory.length < 3) :
    predictPriceWithRegression msqrt regressionModel priceHistory currentPrice
        baseHour hoursAhead rMult rNoise =
      { predictedPrice := jsOrDefault currentPrice, confidence := 30,
        method := "fallback", rSquared := none, trend := none,
        volatility := none } := by
  cases regressionModel with
  | none => rfl
  | some m => simp only [predictPriceWithRegression, if_pos hlen]; rfl

/-- Witness for the amended C1 on a one-sample window with a stale model
present. -/
theorem claim1_amended_witness :
    predictPriceWithRegression (fun q => q)
        (some (mkRegressionModel [40, 40, 40])) [⟨40, 0⟩] (some 37) 5 2 0 0 =
      { predictedPrice := jsOrDefault (some 37), confidence := 30,
        method := "fallback", rSquared := none, trend := none,
        volatility := none } :=
  claim1_amended (fun q => q) (some (mkRegressionModel [40, 40, 40]))
    [⟨40, 0⟩] (some 37) 5 2 0 0 (by norm_num)

/-- Claim C7: for a fixed window of ≥ 3 samples and a fixed fitted model,
the confidence returned by `predict` is monotonically non-increasing in
the horizon (`predict(k+1)` confidence ≤ `predict(k)` confidence, for any
wall-clock hour and any random draws on either call, even though the
time-of-day bonus varies with the target hour), and it never drops below
25. -/
theorem claim7_confidence_monotone (msqrt : ℚ → ℚ) (m : RegressionModel)
    (priceHistory : List Sample) (currentPrice : Option ℚ) (baseHour k : ℕ)
    (r1 r2 r3 r4 : ℚ) (hlen : 3 ≤ priceHistory.length) :
    (predictPriceWithRegression msqrt (some m) priceHistory currentPrice
        baseHour (k + 1) r3 r4).confidence ≤
      (predictPriceWithRegression msqrt (some m) priceHistory currentPrice
        baseHour k r1 r2).confidence ∧
      25 ≤ (predictPriceWithRegression msqrt (some m) priceHistory currentPrice
        baseHour k r1 r2).confidence := by
  have hlen2 : ¬ priceHistory.length < 3 := by omega
  rw [predict_confidence_eq msqrt m priceHistory currentPrice baseHour (k + 1)
      r3 r4 hlen2,
    predict_confidence_eq msqrt m priceHistory currentPrice baseHour k
      r1 r2 hlen2]
  refine ⟨max_le_max le_rfl ?_, le_max_left _ _⟩
  have hcast : ((k + 1 : ℕ) : ℚ) = (k : ℚ) + 1 := by push_cast; ring
  rw [hcast]
  split_ifs <;> linarith

/-- Witness for C7 on the flat three-sample window at horizon 0. -/
theorem claim7_confidence_monotone_witness :
    (predictPriceWithRegression (fun q => q)
        (some (mkRegressionModel [40, 40, 40]))
        [⟨40, 0⟩, ⟨40, 40000⟩, ⟨40, 80000⟩] (some 45) 0 (0 + 1) 0 0).confidence ≤
      (predictPriceWithRegression (fun q => q)
        (some (mkRegressionModel [40, 40, 40]))
        [⟨40, 0⟩, ⟨40, 40000⟩, ⟨40, 80000⟩] (some 45) 0 0 0 0).confidence ∧
      25 ≤ (predictPriceWithRegression (fun q => q)
        (some (mkRegressionModel [40, 40, 40]))
        [⟨40, 0⟩, ⟨40, 40000⟩, ⟨40, 80000⟩] (some 45) 0 0 0 0).confidence :=
  claim7_confidence_monotone (fun q => q) (mkRegressionModel [40, 40, 40])
    [⟨40, 0⟩, ⟨40, 40000⟩, ⟨40, 80000⟩] (some 45) 0 0 0 0 0 0 (by norm_num)

/-- Claim C8 as frozen is false on the code: the insufficient-data
fallback path returns the caller's current price UNCLAMPED.  With an
empty window and current price 5, `predict(0)` returns predictedPrice 5,
below the floor of 10. -/
theorem claim8_cex :
    (predictPriceWithRegression (fun q => q) none [] (some 5) 0 0 0 0).predictedPrice
        = 5 ∧
      ¬ (10 ≤ (predictPriceWithRegression (fun q => q) none [] (some 5)
          0 0 0 0).predictedPrice) := by
  have h : (predictPriceWithRegression (fun q => q) none [] (some 5)
      0 0 0 0).predictedPrice = 5 := by
    norm_num [predictPriceWithRegression, fallbackPrediction, jsOrDefault]
  refine ⟨h, ?_⟩
  rw [h]
  norm_num

/-- Claim C8 (amended): on the fitted path (window of ≥ 3 samples with a
model present) the predicted price is clamped to the floor of 10 for
every window content, horizon, hour, and random draw; the fallback path
instead returns `currentPrice || 45.0` unclamped. -/
theorem claim8_amended :
    (∀ (msqrt : ℚ → ℚ) (m : RegressionModel) (priceHistory : List Sample)
        (currentPrice : Option ℚ) (baseHour hoursAhead : ℕ) (rMult rNoise : ℚ),
        3 ≤ priceHistory.length →
          10 ≤ (predictPriceWithRegression msqrt (some m) priceHistory
              currentPrice baseHour hoursAhead rMult rNoise).predictedPrice) ∧
      ∀ (msqrt : ℚ → ℚ) (regressionModel : Option RegressionModel)
        (priceHistory : List Sample) (currentPrice : Option ℚ)
        (baseHour hoursAhead : ℕ) (rMult rNoise : ℚ),
        priceHistory.length < 3 →
          (predictPriceWithRegression msqrt regressionModel priceHistory
              currentPrice baseHour hoursAhead rMult rNoise).predictedPrice =
            jsOrDefault currentPrice := by
  constructor
  · intro msqrt m priceHistory currentPrice baseHour hoursAhead rMult rNoise hlen
    have hlen2 : ¬ priceHistory.length < 3 := by omega
    simp only [predictPriceWithRegression, if_neg hlen2]
    exact le_max_left 10 _
  · intro msqrt regressionModel priceHistory currentPrice baseHour hoursAhead
      rMult rNoise hlen
    cases regressionModel with
    | none => rfl
    | some m => simp only [predictPriceWithRegression, if_pos hlen]; rfl

/-- Witness for the amended C8: floor respected on the flat fitted
window, and the unclamped fallback on an empty window with current
price 5. -/
theorem claim8_amended_witness :
    10 ≤ (predictPriceWithRegression (fun q => q)
        (some (mkRegressionModel [40, 40, 40]))
        [⟨40, 0⟩, ⟨40, 40000⟩, ⟨40, 80000⟩] (some 45) 0 0 0 0).predictedPrice ∧
      (predictPriceWithRegression (fun q => q) none [] (some 5)
          0 0 0 0).predictedPrice = jsOrDefault (some 5) :=
  ⟨claim8_amended.1 (fun q => q) (mkRegressionModel [40, 40, 40])
      [⟨40, 0⟩, ⟨40, 40000⟩, ⟨40, 80000⟩] (some 45) 0 0 0 0 (by norm_num),
    claim8_amended.2 (fun q => q) none [] (some 5) 0 0 0 0 (by norm_num)⟩

/-- Claim C10: every prediction's confidence lies in the closed interval
[25, 100] — the fallback returns 30, and on the fitted path the base
`min(95, R²·100)` plus a bonus of at most 5 is floored at
`max(25, · − 5k)` — for every model state, window, hour, horizon and
random draw. -/
theorem claim10_confidence_bounds (msqrt : ℚ → ℚ)
    (regressionModel : Option RegressionModel) (priceHistory : List Sample)
    (currentPrice : Option ℚ) (baseHour hoursAhead : ℕ) (rMult rNoise : ℚ) :
    25 ≤ (predictPriceWithRegression msqrt regressionModel priceHistory
        currentPrice baseHour hoursAhead rMult rNoise).confidence ∧
      (predictPriceWithRegression msqrt regressionModel priceHistory
        currentPrice baseHour hoursAhead rMult rNoise).confidence ≤ 100 := by
  cases regressionModel with
  | none =>
      constructor <;> norm_num [predictPriceWithRegression, fallbackPrediction]
  | some m =>
      by_cases hlen : priceHistory.length < 3
      · constructor <;>
          norm_num [predictPriceWithRegression, if_pos hlen, fallbackPrediction]
      · rw [predict_confidence_eq msqrt m priceHistory currentPrice baseHour
          hoursAhead rMult rNoise hlen]
        refine ⟨le_max_left _ _, ?_⟩
        have hmin : min 95 (m.fit.rSquared * 100) ≤ 95 := min_le_left _ _
        have hk : (0 : ℚ) ≤ (hoursAhead : ℚ) * 5 :=
          mul_nonneg (Nat.cast_nonneg hoursAhead) (by norm_num)
        apply max_le (by norm_num)
        split_ifs <;> linarith

theorem linReg_flat : computeLinearRegression [0, 1, 2] [40, 40, 40] =
    ⟨0, 40, 0⟩ := by
  norm_num [computeLinearRegression, List.zip]

theorem fitWindow_flat : fitWindow [40, 40, 40] = SelectedFit.linear ⟨0, 40, 0⟩ := by
  have h1 : ([40, 40, 40] : List ℚ).length = 3 := by norm_num
  simp only [fitWindow, h1, xIndices_three, linReg_flat]
  norm_num [SelectedFit.rSquared]

theorem mkModel_flat : mkRegressionModel [40, 40, 40] =
    ⟨SelectedFit.linear ⟨0, 40, 0⟩, "stable"⟩ := by
  have h : mkRegressionModel [40, 40, 40] =
      ⟨fitWindow [40, 40, 40], selectedTrend (fitWindow [40, 40, 40])⟩ := rfl
  rw [h, fitWindow_flat]
  norm_num [selectedTrend]

/-- Claim C9 as frozen is false on the code: `predict` is randomized, not
deterministic.  On the flat fitted window at peak hour 8, two calls with
identical window state, hour and horizon but different `Math.random()`
multiplier draws (0 and 1/2, both legal draws in [0,1)) return different
predicted prices (42 versus 43). -/
theorem claim9_cex :
    predictPriceWithRegression (fun q => q)
        (some (mkRegressionModel [40, 40, 40]))
        [⟨40, 0⟩, ⟨40, 40000⟩, ⟨40, 80000⟩] (some 45) 8 0 0 (1 / 2) ≠
      predictPriceWithRegression (fun q => q)
        (some (mkRegressionModel [40, 40, 40]))
        [⟨40, 0⟩, ⟨40, 40000⟩, ⟨40, 80000⟩] (some 45) 8 0 (1 / 2) (1 / 2) := by
  have h1 : (predictPriceWithRegression (fun q => q)
      (some (mkRegressionModel [40, 40, 40]))
      [⟨40, 0⟩, ⟨40, 40000⟩, ⟨40, 80000⟩] (some 45) 8 0 0 (1 / 2)).predictedPrice
      = 42 := by
    rw [mkModel_flat]
    norm_num [predictPriceWithRegression, evalFit, recentVolatility,
      SelectedFit.rSquared, SelectedFit.modelType]
  have h2 : (predictPriceWithRegression (fun q => q)
      (some (mkRegressionModel [40, 40, 40]))
      [⟨40, 0⟩, ⟨40, 40000⟩, ⟨40, 80000⟩] (some 45) 8 0 (1 / 2) (1 / 2)).predictedPrice
      = 43 := by
    rw [mkModel_flat]
    norm_num [predictPriceWithRegression, evalFit, recentVolatility,
      SelectedFit.rSquared, SelectedFit.modelType]
  intro heq
  rw [heq, h2] at h1
  norm_num at h1

/-- Claim C9 (amended): `record` and `fit` are deterministic, and the
confidence, method, trend, rSquared and volatility fields of `predict`
are independent of the random draws; but the predicted price depends on
the `Math.random()` multiplier/noise draws (see the counterexample), so
only those non-price fields are reproducible across calls on identical
state. -/
theorem claim9_amended (msqrt : ℚ → ℚ)
    (regressionModel : Option RegressionModel) (priceHistory : List Sample)
    (currentPrice : Option ℚ) (baseHour hoursAhead : ℕ) (r1 r2 r3 r4 : ℚ) :
    (predictPriceWithRegression msqrt regressionModel priceHistory currentPrice
        baseHour hoursAhead r1 r2).confidence =
      (predictPriceWithRegression msqrt regressionModel priceHistory currentPrice
        baseHour hoursAhead r3 r4).confidence ∧
    (predictPriceWithRegression msqrt regressionModel priceHistory currentPrice
        baseHour hoursAhead r1 r2).method =
      (predictPriceWithRegression msqrt regressionModel priceHistory currentPrice
        baseHour hoursAhead r3 r4).method ∧
    (predictPriceWithRegression msqrt regressionModel priceHistory currentPrice
        baseHour hoursAhead r1 r2).trend =
      (predictPriceWithRegression msqrt regressionModel priceHistory currentPrice
        baseHour hoursAhead r3 r4).trend ∧
    (predictPriceWithRegression msqrt regressionModel priceHistory currentPrice
        baseHour hoursAhead r1 r2).rSquared =
      (predictPriceWithRegression msqrt regressionModel priceHistory currentPrice
        baseHour hoursAhead r3 r4).rSquared ∧
    (predictPriceWithRegression msqrt regressionModel priceHistory currentPrice
        baseHour hoursAhead r1 r2).volatility =
      (predictPriceWithRegression msqrt regressionModel priceHistory currentPrice
        baseHour hoursAhead r3 r4).volatility := by
  cases regressionModel with
  | none => exact ⟨rfl, rfl, rfl, rfl, rfl⟩
  | some m =>
      by_cases hlen : priceHistory.length < 3
      · refine ⟨?_, ?_, ?_, ?_, ?_⟩ <;>
          simp only [predictPriceWithRegression, if_pos hlen]
      · refine ⟨?_, ?_, ?_, ?_, ?_⟩ <;>
          simp only [predictPriceWithRegression, if_neg hlen]
